import Mathlib

/-!
Shallow embedding of `src/number_sorter.py`, a batch utility that reads
numeric values from a text file (one per non-blank line), sorts them
ascending, and writes them to an output file.

Modelling choices:
* A file is a `List String` of lines; a possibly-missing file is
  `Option (List String)`.
* Python `float` values are modelled by `PyNum`: an exact rational for
  finite values, plus `pinf`, `ninf`, `nan` for the non-finite values
  that Python's `float()` constructor also accepts.
* Python's `float(s)` string parsing is embedded as `pyFloatOfString`,
  following the documented grammar: optional surrounding whitespace,
  optional sign, then `inf`/`infinity`/`nan` (case-insensitive) or a
  decimal literal with optional fraction, exponent, and single
  underscores between digits.
* `sorted` is embedded as stable insertion sort over Python's `<=` on
  floats (`pyLe`); on nan-free lists this agrees with any stable
  comparison sort, hence with CPython's Timsort.
* The driver `main` is a pure function from an environment (argv, the
  input file's content, and a possible OS failure when opening the
  output file) to the run's observable outcome (exit code, stdout
  lines, output-file content, uncaught exception).
-/

set_option maxRecDepth 16000

namespace NumberSorter

/-- View of `Except` as a sum, to derive decidable equality. -/
def exceptToSum {ε α : Type} : Except ε α → ε ⊕ α
  | .error e => .inl e
  | .ok a => .inr a

instance {ε α : Type} [DecidableEq ε] [DecidableEq α] : DecidableEq (Except ε α) :=
  fun a b =>
    decidable_of_iff (exceptToSum a = exceptToSum b)
      (by cases a <;> cases b <;> simp [exceptToSum])

/-! ### Python whitespace stripping (`str.strip()`) -/

/-- ASCII whitespace recognised by Python's `str.strip()`. -/
def isPySpace (c : Char) : Bool :=
  c = ' ' || c = '\t' || c = '\n' || c = '\r' || c = '\x0b' || c = '\x0c'

def pyStripChars (cs : List Char) : List Char :=
  ((cs.dropWhile isPySpace).reverse.dropWhile isPySpace).reverse

/-- `line.strip()` from the source. -/
def pyStrip (s : String) : String := String.mk (pyStripChars s.data)

/-! ### Python `float()` string parsing -/

inductive PyNum where
  | finite (q : ℚ)
  | pinf
  | ninf
  | nan
deriving DecidableEq

def digitVal (c : Char) : Nat := c.toNat - 48

/-- Consume further digits of a digit-part, allowing a single underscore
between two digits (Python's numeric-literal grouping rule). Returns the
digits read and the unconsumed remainder. -/
def moreDigits : List Char → List Nat × List Char
  | [] => ([], [])
  | c :: cs =>
    if c.isDigit then
      let p := moreDigits cs
      (digitVal c :: p.1, p.2)
    else if c = '_' then
      match cs with
      | c2 :: cs2 =>
        if c2.isDigit then
          let p := moreDigits cs2
          (digitVal c2 :: p.1, p.2)
        else ([], c :: cs)
      | [] => ([], [c])
    else ([], c :: cs)

/-- A digit-part: at least one digit, underscores allowed between digits. -/
def digitPart : List Char → Option (List Nat × List Char)
  | [] => none
  | c :: cs =>
    if c.isDigit then
      let p := moreDigits cs
      some (digitVal c :: p.1, p.2)
    else none

def natOfDigits (ds : List Nat) : Nat := ds.foldl (fun a d => a * 10 + d) 0

/-- The rational `mant * 10^e / 10^fracLen` (with `e` negated when
`negExp`); all arithmetic is in `ℕ` with a single final `mkRat`. -/
def decimalValue (mant fracLen : Nat) (negExp : Bool) (e : Nat) : ℚ :=
  if negExp then mkRat (Int.ofNat mant) (10 ^ (fracLen + e))
  else mkRat (Int.ofNat (mant * 10 ^ e)) (10 ^ fracLen)

/-- Apply an optional exponent suffix (input is already lower-cased) to
the mantissa digits `ip ++ fr`; the whole remainder must be consumed. -/
def applyExp (ip fr : List Nat) : List Char → Option ℚ
  | [] => some (decimalValue (natOfDigits (ip ++ fr)) fr.length false 0)
  | 'e' :: rest =>
    let sr : Bool × List Char :=
      match rest with
      | '+' :: r => (false, r)
      | '-' :: r => (true, r)
      | _ => (false, rest)
    (match digitPart sr.2 with
     | some (ds, []) =>
       some (decimalValue (natOfDigits (ip ++ fr)) fr.length sr.1 (natOfDigits ds))
     | _ => none)
  | _ => none

/-- An unsigned decimal literal: `digits [. [digits]] [exp]` or
`. digits [exp]`, consuming the whole input. -/
def parseDecimal (cs : List Char) : Option ℚ :=
  match digitPart cs with
  | some (ip, rest) =>
    (match rest with
     | '.' :: rest2 =>
       (match digitPart rest2 with
        | some (fr, rest3) => applyExp ip fr rest3
        | none => applyExp ip [] rest2)
     | _ => applyExp ip [] rest)
  | none =>
    (match cs with
     | '.' :: rest2 =>
       (match digitPart rest2 with
        | some (fr, rest3) => applyExp [] fr rest3
        | none => none)
     | _ => none)

/-- Negation of a rational without going through the (irreducible)
`Rat.neg`; the result is the same value. -/
def ratNeg (q : ℚ) : ℚ := mkRat (-q.num) q.den

def pyNeg : PyNum → PyNum
  | .finite q => .finite (ratNeg q)
  | .pinf => .ninf
  | .ninf => .pinf
  | .nan => .nan

/-- Unsigned magnitude: `inf`, `infinity`, `nan` (already lower-cased) or
a decimal literal. -/
def parseMagnitude (cs : List Char) : Option PyNum :=
  if cs = ['i', 'n', 'f'] ∨ cs = ['i', 'n', 'f', 'i', 'n', 'i', 't', 'y'] then some .pinf
  else if cs = ['n', 'a', 'n'] then some .nan
  else (parseDecimal cs).map PyNum.finite

/-- Python's `float(s)`: strip whitespace, lower-case, optional sign,
then magnitude. `none` models a raised `ValueError`. -/
def pyFloatOfString (s : String) : Option PyNum :=
  let cs := (pyStripChars s.data).map Char.toLower
  match cs with
  | '+' :: rest => parseMagnitude rest
  | '-' :: rest => (parseMagnitude rest).map pyNeg
  | _ => parseMagnitude cs

/-! ### Python float comparison and `sorted` -/

/-- Python's `<=` on floats: `nan` compares false with everything,
`-inf` below and `inf` above all numbers. -/
def pyLe : PyNum → PyNum → Bool
  | .nan, _ => false
  | _, .nan => false
  | .ninf, _ => true
  | _, .ninf => false
  | _, .pinf => true
  | .pinf, _ => false
  | .finite a, .finite b => decide (a ≤ b)

def pyLE (a b : PyNum) : Prop := pyLe a b = true

instance : DecidableRel pyLE := fun a b => inferInstanceAs (Decidable (pyLe a b = true))

/-- `sort_numbers` from the source: `sorted(numbers)`, embedded as a
stable comparison sort. -/
def sort_numbers (numbers : List PyNum) : List PyNum :=
  numbers.insertionSort pyLE

/-! ### Decimal rendering (`int(x)` / `repr(float)` f-string formatting) -/

def natDigitsAux : Nat → Nat → List Nat
  | 0, _ => []
  | fuel + 1, n => if n < 10 then [n] else natDigitsAux fuel (n / 10) ++ [n % 10]

/-- Base-10 digits of `n`, most significant first. -/
def natDigits (n : Nat) : List Nat := natDigitsAux (n + 1) n

def digitChar (d : Nat) : Char := Char.ofNat (48 + d)

def natStr (n : Nat) : String := String.mk ((natDigits n).map digitChar)

/-- Decimal rendering of an integer, as `f"{int(number)}"` produces. -/
def intStr (n : ℤ) : String := (if n < 0 then "-" else "") ++ natStr n.natAbs

/-- Decimal digits of the fraction `n / d` (with `n < d`), stopping
when the remainder is zero; the fuel bounds the number of digits. -/
def fracDigitsAux : Nat → Nat → Nat → List Nat
  | 0, _, _ => []
  | fuel + 1, n, d =>
    if n = 0 then [] else (n * 10 / d) :: fracDigitsAux fuel (n * 10 % d) d

/-- Minimal decimal rendering of a finite value, `f"{number}"` style:
sign, integer part, then the fractional digits with no trailing zeros.
For a terminating decimal the fuel `q.den` is enough to emit every
digit. -/
def formatFinite (q : ℚ) : String :=
  if q.den = 1 then intStr q.num
  else
    (if q < 0 then "-" else "") ++ natStr (q.num.natAbs / q.den) ++ "." ++
      String.mk ((fracDigitsAux q.den (q.num.natAbs % q.den) q.den).map digitChar)

/-- The line written for one value by `write_numbers_to_file`:
`f"{int(number)}"` when `number.is_integer()`, else `f"{number}"`. -/
def formatNumber : PyNum → String
  | .finite q => formatFinite q
  | .pinf => "inf"
  | .ninf => "-inf"
  | .nan => "nan"

/-- `write_numbers_to_file` from the source, as the list of lines the
output file receives (each is terminated by a newline on disk). -/
def write_numbers_to_file (numbers : List PyNum) : List String :=
  numbers.map formatNumber

/-! ### Reader -/

inductive PyExc where
  | fileNotFound (msg : String)
  | valueError (msg : String)
  | indexError (msg : String)
  | osError (msg : String)
deriving DecidableEq

/-- The `ValueError` message raised for a malformed line. -/
def invalidMsg (s : String) (n : Nat) : String :=
  "Invalid number '" ++ s ++ "' on line " ++ natStr n

/-- The reading loop of `read_numbers_from_file`: lines are 1-indexed
by `n`, stripped, blank lines skipped, and the first malformed line
raises `ValueError` carrying the stripped text and the line number. -/
def readLines : List String → Nat → Except PyExc (List PyNum)
  | [], _ => .ok []
  | l :: ls, n =>
    let s := pyStrip l
    if s = "" then readLines ls (n + 1)
    else
      match pyFloatOfString s with
      | some v => (readLines ls (n + 1)).map (fun vs => v :: vs)
      | none => .error (.valueError (invalidMsg s n))

/-- `read_numbers_from_file` from the source; a missing file raises
`FileNotFoundError` with the re-worded message. -/
def read_numbers_from_file (file : Option (List String)) (filename : String) :
    Except PyExc (List PyNum) :=
  match file with
  | none => .error (.fileNotFound ("File '" ++ filename ++ "' not found"))
  | some ls => readLines ls 1

/-- The stripped non-blank lines of a file, in file order. -/
def nonBlankLines (lines : List String) : List String :=
  (lines.map pyStrip).filter (fun s => decide (s ≠ ""))

/-! ### Driver -/

/-- `str(float)` as used by the min/max report prints (`10.0` keeps its
`.0` suffix there, unlike the writer's formatting). -/
def pyRepr : PyNum → String
  | .finite q => if q.den = 1 then intStr q.num ++ ".0" else formatFinite q
  | .pinf => "inf"
  | .ninf => "-inf"
  | .nan => "nan"

/-- The environment a run of `main` observes: the full `sys.argv`
(program name included), the input file's lines (or `none` when the
path does not resolve), and the exception the OS raises when opening
the output path for writing (or `none` when the write succeeds). -/
structure Env where
  argv : List String
  inputFile : Option (List String)
  writeFailure : Option PyExc
deriving DecidableEq

/-- Observable outcome of a run: exit status, stdout lines, the output
file's content when it was written, and an uncaught exception when the
run ends in an unhandled traceback (CPython exits with status 1 then). -/
structure RunResult where
  exitCode : Nat
  stdout : List String
  output : Option (List String)
  uncaught : Option PyExc
deriving DecidableEq

def usageMsg : String := "Usage: python number_sorter.py <input_file> <output_file>"

/-- The driver's `except (FileNotFoundError, ValueError)` clause. -/
def caughtByMain : PyExc → Bool
  | .fileNotFound _ => true
  | .valueError _ => true
  | .indexError _ => false
  | .osError _ => false

def excMessage : PyExc → String
  | .fileNotFound m => m
  | .valueError m => m
  | .indexError m => m
  | .osError m => m

/-- The stdout lines printed before the read completes. -/
def preReadOut (env : Env) : List String :=
  ["Reading numbers from " ++ env.argv.getD 1 "" ++ "..."]

/-- The stdout lines printed between a successful read and the write. -/
def preWriteOut (env : Env) (numbers : List PyNum) : List String :=
  preReadOut env ++ ["Found " ++ natStr numbers.length ++ " numbers",
    "Sorting numbers...",
    "Writing sorted numbers to " ++ env.argv.getD 2 "" ++ "..."]

/-- `main()` from the source as a pure function on the environment. -/
def main (env : Env) : RunResult :=
  if env.argv.length ≠ 3 then
    { exitCode := 1, stdout := [usageMsg], output := none, uncaught := none }
  else
    match read_numbers_from_file env.inputFile (env.argv.getD 1 "") with
    | .error e =>
      if caughtByMain e then
        { exitCode := 1, stdout := preReadOut env ++ ["Error: " ++ excMessage e],
          output := none, uncaught := none }
      else
        { exitCode := 1, stdout := preReadOut env, output := none, uncaught := some e }
    | .ok numbers =>
      match env.writeFailure with
      | some e =>
        if caughtByMain e then
          { exitCode := 1,
            stdout := preWriteOut env numbers ++ ["Error: " ++ excMessage e],
            output := none, uncaught := none }
        else
          { exitCode := 1, stdout := preWriteOut env numbers,
            output := none, uncaught := some e }
      | none =>
        match sort_numbers numbers with
        | [] =>
          { exitCode := 1,
            stdout := preWriteOut env numbers ++ ["Sorting completed successfully!"],
            output := some (write_numbers_to_file []),
            uncaught := some (.indexError "list index out of range") }
        | x :: rest =>
          { exitCode := 0,
            stdout := preWriteOut env numbers ++ ["Sorting completed successfully!",
              "Smallest number: " ++ pyRepr x,
              "Largest number: " ++ pyRepr ((x :: rest).getLast (List.cons_ne_nil x rest))],
            output := some (write_numbers_to_file (x :: rest)), uncaught := none }

/-! ### Order lemmas for `pyLe` -/

lemma pyLe_trans (a b c : PyNum) (hab : pyLe a b = true) (hbc : pyLe b c = true) :
    pyLe a c = true := by
  cases a <;> cases b <;> cases c <;> simp_all [pyLe]
  exact le_trans hab hbc

instance : IsTrans PyNum pyLE := ⟨fun a b c => pyLe_trans a b c⟩

lemma pyLe_total_of_ne_nan (a b : PyNum) (ha : a ≠ .nan) (hb : b ≠ .nan) :
    pyLe a b = true ∨ pyLe b a = true := by
  cases a <;> cases b <;> simp_all [pyLe]
  exact le_total _ _

lemma sorted_orderedInsert (a : PyNum) (ha : a ≠ .nan) :
    ∀ l : List PyNum, (∀ x ∈ l, x ≠ PyNum.nan) → l.Sorted pyLE →
      (l.orderedInsert pyLE a).Sorted pyLE
  | [], _, _ => by simp
  | b :: t, hl, hs => by
    rw [List.orderedInsert]
    by_cases hab : pyLE a b
    · rw [if_pos hab]
      refine List.sorted_cons.mpr ⟨?_, hs⟩
      intro x hx
      rcases List.mem_cons.mp hx with rfl | hxt
      · exact hab
      · exact pyLe_trans a b x hab ((List.sorted_cons.mp hs).1 x hxt)
    · rw [if_neg hab]
      have hb : b ≠ PyNum.nan := hl b (List.mem_cons_self b t)
      have hba : pyLE b a :=
        (pyLe_total_of_ne_nan a b ha hb).resolve_left hab
      refine List.sorted_cons.mpr ⟨?_, ?_⟩
      · intro x hx
        rcases (List.mem_orderedInsert pyLE).mp hx with rfl | hxt
        · exact hba
        · exact (List.sorted_cons.mp hs).1 x hxt
      · exact sorted_orderedInsert a ha t
          (fun x hx => hl x (List.mem_cons_of_mem b hx)) (List.sorted_cons.mp hs).2

lemma sorted_sort_numbers :
    ∀ xs : List PyNum, (∀ x ∈ xs, x ≠ PyNum.nan) → (sort_numbers xs).Sorted pyLE
  | [], _ => by simp [sort_numbers]
  | x :: xs, h => by
    rw [sort_numbers, List.insertionSort]
    refine sorted_orderedInsert x (h x (List.mem_cons_self x xs)) _ ?_ ?_
    · intro y hy
      exact h y (List.mem_cons_of_mem x ((List.mem_insertionSort pyLE).mp hy))
    · exact sorted_sort_numbers xs (fun y hy => h y (List.mem_cons_of_mem x hy))

/-- C1: for every list of numeric values (every Python float except
`nan`, on which `sorted` gives no ordering guarantee), `sort_numbers`
returns a sequence with the same length and the same multiset of
values, arranged so that every adjacent pair `(a, b)` satisfies
`a ≤ b`; the empty list yields the empty list and a single-element
list is returned unchanged. -/
theorem sort_numbers_spec (xs : List PyNum) (h : ∀ x ∈ xs, x ≠ PyNum.nan) :
    (sort_numbers xs).length = xs.length ∧
    ((sort_numbers xs : Multiset PyNum) = (xs : Multiset PyNum)) ∧
    List.Chain' pyLE (sort_numbers xs) ∧
    sort_numbers [] = [] ∧
    (∀ x : PyNum, sort_numbers [x] = [x]) := by
  refine ⟨(List.perm_insertionSort pyLE xs).length_eq, ?_, ?_, rfl, fun x => rfl⟩
  · exact Multiset.coe_eq_coe.mpr (List.perm_insertionSort pyLE xs)
  · exact List.Pairwise.chain' (sorted_sort_numbers xs h)

/-- Witness for C1 at the concrete input `[3, 1, 2, 1]`. -/
theorem sort_numbers_spec_witness :
    (∀ x ∈ [PyNum.finite 3, PyNum.finite 1, PyNum.finite 2, PyNum.finite 1],
        x ≠ PyNum.nan) ∧
    ((sort_numbers [PyNum.finite 3, PyNum.finite 1, PyNum.finite 2, PyNum.finite 1]).length
        = [PyNum.finite 3, PyNum.finite 1, PyNum.finite 2, PyNum.finite 1].length ∧
      ((sort_numbers [PyNum.finite 3, PyNum.finite 1, PyNum.finite 2, PyNum.finite 1] :
          Multiset PyNum)
        = ([PyNum.finite 3, PyNum.finite 1, PyNum.finite 2, PyNum.finite 1] :
          Multiset PyNum)) ∧
      List.Chain' pyLE
        (sort_numbers [PyNum.finite 3, PyNum.finite 1, PyNum.finite 2, PyNum.finite 1]) ∧
      sort_numbers [] = [] ∧
      (∀ x : PyNum, sort_numbers [x] = [x])) :=
  ⟨by decide, sort_numbers_spec _ (by decide)⟩

/-- C9: sorting is idempotent: `sort_numbers (sort_numbers xs) =
sort_numbers xs`, and a list already in non-descending order is
returned unchanged (stated away from `nan`, where Python's comparisons
give no ordering at all). -/
theorem sort_numbers_idem (xs : List PyNum) (h : ∀ x ∈ xs, x ≠ PyNum.nan) :
    sort_numbers (sort_numbers xs) = sort_numbers xs ∧
    (List.Chain' pyLE xs → sort_numbers xs = xs) := by
  constructor
  · exact List.Sorted.insertionSort_eq (sorted_sort_numbers xs h)
  · intro hc
    exact List.Sorted.insertionSort_eq (List.chain'_iff_pairwise.mp hc)

/-- Witness for C9 at the concrete input `[2, 1]`. -/
theorem sort_numbers_idem_witness :
    (∀ x ∈ [PyNum.finite 2, PyNum.finite 1], x ≠ PyNum.nan) ∧
    (sort_numbers (sort_numbers [PyNum.finite 2, PyNum.finite 1]) =
        sort_numbers [PyNum.finite 2, PyNum.finite 1] ∧
      (List.Chain' pyLE [PyNum.finite 2, PyNum.finite 1] →
        sort_numbers [PyNum.finite 2, PyNum.finite 1] = [PyNum.finite 2, PyNum.finite 1])) :=
  ⟨by decide, sort_numbers_idem _ (by decide)⟩

/-! ### Reader lemmas -/

/-- A line on which the reader raises `ValueError`: non-blank after
stripping, but not accepted by `float()`. -/
def badLine (l : String) : Prop :=
  pyStrip l ≠ "" ∧ pyFloatOfString (pyStrip l) = none

instance (l : String) : Decidable (badLine l) :=
  inferInstanceAs (Decidable (_ ∧ _))

lemma readLines_ok_spec :
    ∀ (ls : List String) (n : Nat) (vs : List PyNum),
      readLines ls n = .ok vs →
      vs.length = (nonBlankLines ls).length ∧
      ∀ (i : Nat) (hi : i < (nonBlankLines ls).length) (hv : i < vs.length),
        pyFloatOfString ((nonBlankLines ls).get ⟨i, hi⟩) = some (vs.get ⟨i, hv⟩)
  | [], n, vs, h => by
    simp only [readLines, Except.ok.injEq] at h
    subst h
    simp [nonBlankLines]
  | l :: ls, n, vs, h => by
    rw [readLines] at h
    by_cases hs : pyStrip l = ""
    · rw [if_pos hs] at h
      have ih := readLines_ok_spec ls (n + 1) vs h
      simpa [nonBlankLines, hs] using ih
    · rw [if_neg hs] at h
      rcases hv : pyFloatOfString (pyStrip l) with _ | v
      · rw [hv] at h
        exact absurd h (by simp)
      · rw [hv] at h
        rcases hrest : readLines ls (n + 1) with e | vs'
        · rw [hrest] at h
          exact absurd h (by simp [Except.map])
        · rw [hrest] at h
          simp only [Except.map, Except.ok.injEq] at h
          subst h
          have ih := readLines_ok_spec ls (n + 1) vs' hrest
          constructor
          · simp [nonBlankLines, hs, ih.1]
          · intro i hi hvlt
            match i with
            | 0 => simpa [nonBlankLines, hs] using hv
            | i + 1 =>
              have hi' : i < (nonBlankLines ls).length := by
                simpa [nonBlankLines, hs] using hi
              have hv' : i < vs'.length := by simpa using hvlt
              simpa [nonBlankLines, hs] using ih.2 i hi' hv'

/-- C3: when `read_numbers_from_file` succeeds it returns one numeric
value per non-blank line, in file order: the result has exactly as many
values as there are lines that are non-empty after stripping, and the
`i`-th value is the parse of the `i`-th such stripped line. -/
theorem read_numbers_spec (lines : List String) (fn : String) (vs : List PyNum)
    (h : read_numbers_from_file (some lines) fn = .ok vs) :
    vs.length = (nonBlankLines lines).length ∧
    ∀ (i : Nat) (hi : i < (nonBlankLines lines).length) (hv : i < vs.length),
      pyFloatOfString ((nonBlankLines lines).get ⟨i, hi⟩) = some (vs.get ⟨i, hv⟩) :=
  readLines_ok_spec lines 1 vs h

/-- Witness for C3 at the spec's scenario `["10", "", "20", "   ", "30"]`:
the blank and whitespace-only lines are skipped. -/
theorem read_numbers_spec_witness :
    read_numbers_from_file (some ["10", "", "20", "   ", "30"]) "input.txt" =
        .ok [PyNum.finite 10, PyNum.finite 20, PyNum.finite 30] ∧
    ([PyNum.finite 10, PyNum.finite 20, PyNum.finite 30].length =
        (nonBlankLines ["10", "", "20", "   ", "30"]).length ∧
      ∀ (i : Nat) (hi : i < (nonBlankLines ["10", "", "20", "   ", "30"]).length)
        (hv : i < [PyNum.finite 10, PyNum.finite 20, PyNum.finite 30].length),
        pyFloatOfString ((nonBlankLines ["10", "", "20", "   ", "30"]).get ⟨i, hi⟩) =
          some ([PyNum.finite 10, PyNum.finite 20, PyNum.finite 30].get ⟨i, hv⟩)) :=
  ⟨by decide, read_numbers_spec _ "input.txt" _ (by decide)⟩

lemma readLines_error_at :
    ∀ (ls : List String) (n j : Nat) (hj : j < ls.length),
      badLine (ls.get ⟨j, hj⟩) →
      (∀ (i : Nat) (hi : i < ls.length), i < j → ¬ badLine (ls.get ⟨i, hi⟩)) →
      readLines ls n =
        .error (.valueError (invalidMsg (pyStrip (ls.get ⟨j, hj⟩)) (n + j)))
  | [], n, j, hj, _, _ => absurd hj (by simp)
  | l :: ls, n, j, hj, hbad, hfirst => by
    match j with
    | 0 =>
      have hs : pyStrip l ≠ "" := hbad.1
      have hv : pyFloatOfString (pyStrip l) = none := hbad.2
      rw [readLines, if_neg hs]
      simp [hv]
    | j + 1 =>
      have hl : ¬ badLine l := hfirst 0 (by simp) (by omega)
      have hj' : j < ls.length := by simpa using hj
      have hbad' : badLine (ls.get ⟨j, hj'⟩) := by simpa using hbad
      have hfirst' : ∀ (i : Nat) (hi : i < ls.length), i < j →
          ¬ badLine (ls.get ⟨i, hi⟩) := by
        intro i hi hij
        have := hfirst (i + 1) (by simpa using Nat.succ_lt_succ hi) (by omega)
        simpa using this
      have ih := readLines_error_at ls (n + 1) j hj' hbad' hfirst'
      have harith : n + 1 + j = n + (j + 1) := by omega
      by_cases hs : pyStrip l = ""
      · rw [readLines, if_pos hs, ih, harith, List.get_cons_succ]
      · rcases hv : pyFloatOfString (pyStrip l) with _ | v
        · exact absurd ⟨hs, hv⟩ hl
        · rw [readLines, if_neg hs, hv, ih, harith]
          simp [Except.map]

/-- C4: when some non-blank line fails numeric parsing, the reader
fails with the InvalidInput kind (`ValueError`) whose message carries
the stripped offending text and its 1-indexed line number, counted over
all lines; the first such line wins and no partial result is returned,
and under the driver no output file is written and the exit status
is 1. -/
theorem read_numbers_first_error (lines : List String) (fn : String) (j : Nat)
    (hj : j < lines.length) (hbad : badLine (lines.get ⟨j, hj⟩))
    (hfirst : ∀ (i : Nat) (hi : i < lines.length), i < j →
      ¬ badLine (lines.get ⟨i, hi⟩)) :
    read_numbers_from_file (some lines) fn =
      .error (.valueError (invalidMsg (pyStrip (lines.get ⟨j, hj⟩)) (j + 1))) ∧
    ∀ env : Env, env.argv.length = 3 → env.inputFile = some lines →
      (main env).output = none ∧ (main env).exitCode = 1 := by
  have hread : read_numbers_from_file (some lines) fn =
      .error (.valueError (invalidMsg (pyStrip (lines.get ⟨j, hj⟩)) (j + 1))) := by
    have h := readLines_error_at lines 1 j hj hbad hfirst
    rw [Nat.add_comm 1 j] at h
    exact h
  refine ⟨hread, ?_⟩
  intro env h3 hin
  have hread' : read_numbers_from_file env.inputFile (env.argv.getD 1 "") =
      .error (.valueError (invalidMsg (pyStrip (lines.get ⟨j, hj⟩)) (j + 1))) := by
    rw [hin]
    exact hread
  rw [main, if_neg (by omega)]
  rw [hread']
  simp [caughtByMain]

/-- Witness for C4 at the spec's scenario `["10", "abc", "20"]`: the
error names text `abc` and line number 2, and the driver writes no
output and exits 1. -/
theorem read_numbers_first_error_witness :
    (1 < (["10", "abc", "20"] : List String).length ∧
      badLine ((["10", "abc", "20"] : List String).get ⟨1, by decide⟩) ∧
      (∀ (i : Nat) (hi : i < (["10", "abc", "20"] : List String).length), i < 1 →
        ¬ badLine ((["10", "abc", "20"] : List String).get ⟨i, hi⟩))) ∧
    (read_numbers_from_file (some ["10", "abc", "20"]) "input.txt" =
        .error (.valueError (invalidMsg
          (pyStrip ((["10", "abc", "20"] : List String).get ⟨1, by decide⟩)) (1 + 1))) ∧
      ∀ env : Env, env.argv.length = 3 → env.inputFile = some ["10", "abc", "20"] →
        (main env).output = none ∧ (main env).exitCode = 1) :=
  ⟨⟨by decide, by decide, by decide⟩,
    read_numbers_first_error ["10", "abc", "20"] "input.txt" 1 (by decide)
      (by decide) (by decide)⟩

/-! ### Pipeline and driver theorems -/

/-- C2: whenever the reader succeeds and the write does not fail, the
driver writes exactly the formatted sorted sequence to the output file,
and the sorted sequence holds the same multiset of values as was read:
only order and textual formatting change. -/
theorem pipeline_preserves_multiset (env : Env) (ns : List PyNum)
    (h3 : env.argv.length = 3)
    (hr : read_numbers_from_file env.inputFile (env.argv.getD 1 "") = .ok ns)
    (hw : env.writeFailure = none) :
    (main env).output = some (write_numbers_to_file (sort_numbers ns)) ∧
    ((sort_numbers ns : Multiset PyNum) = (ns : Multiset PyNum)) := by
  constructor
  · rw [main, if_neg (by omega), hr, hw]
    rcases hsort : sort_numbers ns with _ | ⟨x, rest⟩ <;> simp [hsort]
  · exact Multiset.coe_eq_coe.mpr (List.perm_insertionSort pyLE ns)

/-- Witness for C2 on the concrete run reading `["2", "1"]`. -/
theorem pipeline_preserves_multiset_witness :
    ((Env.mk ["number_sorter.py", "in.txt", "out.txt"] (some ["2", "1"])
        none).argv.length = 3 ∧
      read_numbers_from_file (Env.mk ["number_sorter.py", "in.txt", "out.txt"]
          (some ["2", "1"]) none).inputFile
          ((Env.mk ["number_sorter.py", "in.txt", "out.txt"] (some ["2", "1"])
            none).argv.getD 1 "") = .ok [PyNum.finite 2, PyNum.finite 1] ∧
      (Env.mk ["number_sorter.py", "in.txt", "out.txt"] (some ["2", "1"])
        none).writeFailure = none) ∧
    ((main (Env.mk ["number_sorter.py", "in.txt", "out.txt"] (some ["2", "1"])
        none)).output =
        some (write_numbers_to_file (sort_numbers [PyNum.finite 2, PyNum.finite 1])) ∧
      ((sort_numbers [PyNum.finite 2, PyNum.finite 1] : Multiset PyNum) =
        ([PyNum.finite 2, PyNum.finite 1] : Multiset PyNum))) :=
  ⟨⟨by decide, by decide, rfl⟩,
    pipeline_preserves_multiset _ _ (by decide) (by decide) rfl⟩

/-- Environment of the empty-input scenario: valid arguments, an input
file whose only line is blank, and a writable output. -/
def emptyInputEnv : Env :=
  { argv := ["number_sorter.py", "in.txt", "out.txt"], inputFile := some [""],
    writeFailure := none }

/-- C6 (code defect): on an input with zero non-blank lines the driver
does write the output file empty, but then faults: reading
`sorted_numbers[0]` raises an uncaught `IndexError` after the write,
instead of the specified no-op. -/
theorem empty_input_faults :
    (main emptyInputEnv).output = some [] ∧
    (main emptyInputEnv).uncaught = some (.indexError "list index out of range") ∧
    (main emptyInputEnv).exitCode = 1 := by decide

/-- Environment of the unwritable-output scenario: the OS refuses the
output path with a permission error, which is an `OSError` that is not
a `FileNotFoundError`. -/
def permDeniedEnv : Env :=
  { argv := ["number_sorter.py", "in.txt", "out.txt"], inputFile := some ["1"],
    writeFailure := some (.osError "Permission denied") }

/-- C7 counterexample: a permission-kind write failure is not caught by
the driver (its `except` clause covers only `FileNotFoundError` and
`ValueError`), so the run ends in an unhandled fault and no line of the
form `Error: <detail>` is printed. -/
theorem write_osError_not_caught :
    (main permDeniedEnv).uncaught = some (.osError "Permission denied") ∧
    (main permDeniedEnv).stdout =
      ["Reading numbers from in.txt...", "Found 1 numbers", "Sorting numbers...",
        "Writing sorted numbers to out.txt..."] ∧
    (main permDeniedEnv).exitCode = 1 := by decide

/-- C7 (amended): on any write failure nothing is written and the exit
status is 1; a failure of a kind the driver catches (`FileNotFoundError`
such as a missing parent directory, or `ValueError`) is reported as a
one-line `Error: <detail>` message with no unhandled fault, while any
other OS error propagates as an unhandled fault. -/
theorem write_failure_spec (env : Env) (e : PyExc) (ns : List PyNum)
    (h3 : env.argv.length = 3)
    (hr : read_numbers_from_file env.inputFile (env.argv.getD 1 "") = .ok ns)
    (hw : env.writeFailure = some e) :
    (main env).exitCode = 1 ∧ (main env).output = none ∧
    (caughtByMain e = true →
      (main env).uncaught = none ∧
      (main env).stdout = preWriteOut env ns ++ ["Error: " ++ excMessage e]) ∧
    (caughtByMain e = false →
      (main env).uncaught = some e ∧ (main env).stdout = preWriteOut env ns) := by
  rw [main, if_neg (by omega), hr, hw]
  cases hc : caughtByMain e <;> simp [hc]

/-- Witness for C7's amended theorem: a missing parent directory on the
output path is a `FileNotFoundError`, which the driver does catch. -/
theorem write_failure_spec_witness :
    ((Env.mk ["number_sorter.py", "in.txt", "sub/out.txt"] (some ["1"])
        (some (.fileNotFound "[Errno 2] No such file or directory: 'sub/out.txt'"))).argv.length
        = 3 ∧
      read_numbers_from_file
          (Env.mk ["number_sorter.py", "in.txt", "sub/out.txt"] (some ["1"])
            (some (.fileNotFound "[Errno 2] No such file or directory: 'sub/out.txt'"))).inputFile
          ((Env.mk ["number_sorter.py", "in.txt", "sub/out.txt"] (some ["1"])
            (some (.fileNotFound "[Errno 2] No such file or directory: 'sub/out.txt'"))).argv.getD
            1 "") = .ok [PyNum.finite 1] ∧
      (Env.mk ["number_sorter.py", "in.txt", "sub/out.txt"] (some ["1"])
          (some (.fileNotFound "[Errno 2] No such file or directory: 'sub/out.txt'"))).writeFailure
        = some (.fileNotFound "[Errno 2] No such file or directory: 'sub/out.txt'")) ∧
    ((main (Env.mk ["number_sorter.py", "in.txt", "sub/out.txt"] (some ["1"])
          (some (.fileNotFound "[Errno 2] No such file or directory: 'sub/out.txt'")))).exitCode
        = 1 ∧
      (main (Env.mk ["number_sorter.py", "in.txt", "sub/out.txt"] (some ["1"])
          (some (.fileNotFound "[Errno 2] No such file or directory: 'sub/out.txt'")))).output
        = none ∧
      (caughtByMain (.fileNotFound "[Errno 2] No such file or directory: 'sub/out.txt'") = true →
        (main (Env.mk ["number_sorter.py", "in.txt", "sub/out.txt"] (some ["1"])
            (some (.fileNotFound "[Errno 2] No such file or directory: 'sub/out.txt'")))).uncaught
          = none ∧
        (main (Env.mk ["number_sorter.py", "in.txt", "sub/out.txt"] (some ["1"])
            (some (.fileNotFound "[Errno 2] No such file or directory: 'sub/out.txt'")))).stdout
          = preWriteOut (Env.mk ["number_sorter.py", "in.txt", "sub/out.txt"] (some ["1"])
              (some (.fileNotFound "[Errno 2] No such file or directory: 'sub/out.txt'")))
              [PyNum.finite 1] ++
            ["Error: " ++
              excMessage (.fileNotFound "[Errno 2] No such file or directory: 'sub/out.txt'")]) ∧
      (caughtByMain (.fileNotFound "[Errno 2] No such file or directory: 'sub/out.txt'") = false →
        (main (Env.mk ["number_sorter.py", "in.txt", "sub/out.txt"] (some ["1"])
            (some (.fileNotFound "[Errno 2] No such file or directory: 'sub/out.txt'")))).uncaught
          = some (.fileNotFound "[Errno 2] No such file or directory: 'sub/out.txt'") ∧
        (main (Env.mk ["number_sorter.py", "in.txt", "sub/out.txt"] (some ["1"])
            (some (.fileNotFound "[Errno 2] No such file or directory: 'sub/out.txt'")))).stdout
          = preWriteOut (Env.mk ["number_sorter.py", "in.txt", "sub/out.txt"] (some ["1"])
              (some (.fileNotFound "[Errno 2] No such file or directory: 'sub/out.txt'")))
              [PyNum.finite 1])) :=
  ⟨⟨by decide, by decide, rfl⟩,
    write_failure_spec _ _ _ (by decide) (by decide) rfl⟩

/-- C8: usage errors print the usage line to stdout and exit 1; a
missing input file exits 1; a malformed numeric line exits 1; and a run
whose read succeeds with at least one value and whose write succeeds
exits 0. -/
theorem exit_code_spec (env : Env) :
    (env.argv.length ≠ 3 →
      main env =
        { exitCode := 1, stdout := [usageMsg], output := none, uncaught := none }) ∧
    (env.argv.length = 3 → env.inputFile = none → (main env).exitCode = 1) ∧
    (env.argv.length = 3 → ∀ m : String,
      read_numbers_from_file env.inputFile (env.argv.getD 1 "") =
        .error (.valueError m) → (main env).exitCode = 1) ∧
    (env.argv.length = 3 → env.writeFailure = none →
      ∀ ns : List PyNum,
        read_numbers_from_file env.inputFile (env.argv.getD 1 "") = .ok ns →
        ns ≠ [] → (main env).exitCode = 0) := by
  refine ⟨?_, ?_, ?_, ?_⟩
  · intro h
    rw [main, if_pos h]
  · intro h3 hin
    have hr : read_numbers_from_file env.inputFile (env.argv.getD 1 "") =
        .error (.fileNotFound ("File '" ++ env.argv.getD 1 "" ++ "' not found")) := by
      rw [hin]
      rfl
    rw [main, if_neg (by omega), hr]
    simp [caughtByMain]
  · intro h3 m hr
    rw [main, if_neg (by omega), hr]
    simp [caughtByMain]
  · intro h3 hw ns hr hne
    have hlen : (sort_numbers ns).length = ns.length :=
      List.length_insertionSort pyLE ns
    rw [main, if_neg (by omega), hr, hw]
    rcases hsort : sort_numbers ns with _ | ⟨x, rest⟩
    · rw [hsort] at hlen
      exact absurd (List.length_eq_zero.mp hlen.symm) hne
    · simp [hsort]

/-- Witness for C8 on a usage-error run, a missing-input run, a
malformed-line run, and a successful run. -/
theorem exit_code_spec_witness :
    (main (Env.mk ["number_sorter.py"] none none) =
        { exitCode := 1, stdout := [usageMsg], output := none, uncaught := none }) ∧
    (main (Env.mk ["number_sorter.py", "in.txt", "out.txt"] none none)).exitCode = 1 ∧
    (main (Env.mk ["number_sorter.py", "in.txt", "out.txt"] (some ["abc"]) none)).exitCode
      = 1 ∧
    (main (Env.mk ["number_sorter.py", "in.txt", "out.txt"] (some ["1"]) none)).exitCode
      = 0 :=
  ⟨(exit_code_spec _).1 (by decide),
    (exit_code_spec _).2.1 (by decide) rfl,
    (exit_code_spec _).2.2.1 (by decide) (invalidMsg "abc" 1) (by decide),
    (exit_code_spec _).2.2.2 (by decide) rfl [PyNum.finite 1] (by decide) (by decide)⟩

/-! ### Formatting theorems -/

lemma natDigitsAux_lt_ten :
    ∀ (fuel n : Nat), ∀ d ∈ natDigitsAux fuel n, d < 10
  | 0, n => by simp [natDigitsAux]
  | fuel + 1, n => by
    rw [natDigitsAux]
    by_cases h : n < 10
    · rw [if_pos h]
      intro d hd
      simp at hd
      omega
    · rw [if_neg h]
      intro d hd
      rcases List.mem_append.mp hd with h1 | h2
      · exact natDigitsAux_lt_ten fuel (n / 10) d h1
      · simp at h2
        subst h2
        exact Nat.mod_lt _ (by omega)

lemma digitChar_ne_dot (d : Nat) (hd : d < 10) : digitChar d ≠ '.' := by
  interval_cases d <;> decide

lemma natStr_no_dot (n : Nat) : ∀ c ∈ ((natDigits n).map digitChar), c ≠ '.' := by
  intro c hc
  rcases List.mem_map.mp hc with ⟨d, hd, rfl⟩
  exact digitChar_ne_dot d (natDigitsAux_lt_ten _ _ d hd)

lemma intStr_no_dot (n : ℤ) : ∀ c ∈ (intStr n).data, c ≠ '.' := by
  intro c hc
  rw [intStr, String.data_append] at hc
  rcases List.mem_append.mp hc with h1 | h2
  · by_cases hn : n < 0
    · rw [if_pos hn] at h1
      simp at h1
      subst h1
      decide
    · rw [if_neg hn] at h1
      simp at h1
  · exact natStr_no_dot n.natAbs c h2

/-- C5: a value whose fractional part is exactly zero is written as the
integer text, with no decimal point anywhere in the rendered line; and
the spec's scenario `[10.0, 20.5, 30.0, 40.7]` produces exactly the
lines `10`, `20.5`, `30`, `40.7`. -/
theorem format_integer_spec (q : ℚ) (hq : q.den = 1) :
    formatNumber (.finite q) = intStr q.num ∧
    (∀ c ∈ (formatNumber (.finite q)).data, c ≠ '.') ∧
    write_numbers_to_file
        [.finite 10, .finite (mkRat 41 2), .finite 30, .finite (mkRat 407 10)] =
      ["10", "20.5", "30", "40.7"] := by
  have h1 : formatNumber (.finite q) = intStr q.num := by
    simp [formatNumber, formatFinite, hq]
  refine ⟨h1, ?_, by decide⟩
  rw [h1]
  exact intStr_no_dot q.num

/-- Witness for C5 at the whole value `10`. -/
theorem format_integer_spec_witness :
    ((10 : ℚ).den = 1) ∧
    (formatNumber (.finite 10) = intStr (10 : ℚ).num ∧
      (∀ c ∈ (formatNumber (.finite 10)).data, c ≠ '.') ∧
      write_numbers_to_file
          [.finite 10, .finite (mkRat 41 2), .finite 30, .finite (mkRat 407 10)] =
        ["10", "20.5", "30", "40.7"]) :=
  ⟨by decide, format_integer_spec 10 (by decide)⟩

/-- C10: Python's `float()` accepts several non-blank strings that are
not plain base-10 decimal literals, so the reader returns values for
them instead of failing: `inf`, `nan`, `Infinity`, exponent form `1e5`
and underscore-grouped `1_000` all parse, and a file holding them is
read successfully into a sequence containing non-finite values. -/
theorem float_accepts_non_literals :
    pyFloatOfString "inf" = some .pinf ∧
    pyFloatOfString "nan" = some .nan ∧
    pyFloatOfString "Infinity" = some .pinf ∧
    pyFloatOfString "1e5" = some (.finite 100000) ∧
    pyFloatOfString "1_000" = some (.finite 1000) ∧
    read_numbers_from_file (some ["inf", "nan", "1e5", "1_000"]) "input.txt" =
      .ok [.pinf, .nan, .finite 100000, .finite 1000] := by decide

end NumberSorter
